import Mathlib

/-!
Shallow embedding of the bi-directional photo synchronization engine of the
rn-tournament-players repository (Supabase storage service, photo store,
string helpers, settings-screen orchestration), together with theorems that
settle the specification claims against it.

File contents are modelled at the level of the two reads the code performs
(`readAsStringAsync` with Base64 / UTF8 encodings); network transfers are
modelled by their observable outcome (HTTP status plus the file state they
leave behind); the sequential per-item loops are modelled by their counting
behaviour over a success oracle, which is faithful because each item is
attempted exactly once, in order, independently of the others.

JavaScript strings are modelled as `List Char`. `Char.toLower` /
`Char.isWhitespace` stand in for the JS `toLowerCase()` / `\s` behaviour on
the ASCII range the engine deals in.
-/

set_option autoImplicit false

/-- JavaScript strings, modelled as lists of characters. -/
abbrev JStr := List Char

/-- JS `String.prototype.toLowerCase()`. -/
def jsToLower (s : JStr) : JStr := s.map Char.toLower

/-- JS `String.prototype.includes(needle)`: substring containment. -/
def containsSub (needle : JStr) : JStr → Bool
  | [] => needle.isEmpty
  | c :: rest => needle.isPrefixOf (c :: rest) || containsSub needle rest

/-- JS `String.prototype.split(sep)` for a one-character separator. -/
def jsSplitOn (sep : Char) : JStr → List JStr
  | [] => [[]]
  | c :: rest =>
    if c == sep then [] :: jsSplitOn sep rest
    else
      match jsSplitOn sep rest with
      | [] => [[c]]
      | s :: ss => (c :: s) :: ss

/-- JS `String.prototype.trim()`: strip leading and trailing whitespace. -/
def jsTrim (s : JStr) : JStr :=
  ((s.dropWhile Char.isWhitespace).reverse.dropWhile Char.isWhitespace).reverse

/-- JS replace of the regex for whitespace runs by the empty string:
remove every whitespace character. -/
def removeWhitespace (s : JStr) : JStr := s.filter (fun c => !c.isWhitespace)

/-- JS `String.prototype.replace(pat, rep)` with a string pattern: replace
the first occurrence only, leave the string unchanged when absent. -/
def replaceFirst (pat rep : JStr) : JStr → JStr
  | [] => if pat.isEmpty then rep else []
  | c :: rest =>
    if pat.isPrefixOf (c :: rest) then rep ++ (c :: rest).drop pat.length
    else c :: replaceFirst pat rep rest

/-- Model of `basename` from the sync service: `lastIndexOf` of the slash
followed by `slice(idx + 1)`, i.e.
the last slash-separated segment (the whole path when
no slash occurs). -/
def basenameJs (p : JStr) : JStr := (jsSplitOn '/' p).getLastD p

/-- Model of `composeImageFileName` (helpers/utils.js): split the display name on
commas; with two or more parts, concatenate the trimmed second part then the
trimmed first part ("Last, First" becomes `FirstLast`); remove all
whitespace, lowercase, and append `.png`. -/
def composeImageFileName (name : JStr) : JStr :=
  let parts := jsSplitOn ',' name
  let sName :=
    match parts with
    | p0 :: p1 :: _ => jsTrim p1 ++ jsTrim p0
    | _ => name
  jsToLower (removeWhitespace sName) ++ ".png".toList

/-! ### Retry policy (`withRetry`, `isRetryableStatus`) -/

/-- Constant `RETRY_ATTEMPTS` of the sync service. -/
def RETRY_ATTEMPTS : Nat := 3

/-- Constant `RETRY_BASE_DELAY_MS` of the sync service. -/
def RETRY_BASE_DELAY_MS : Nat := 400

/-- Constant `RETRY_MAX_DELAY_MS` of the sync service. -/
def RETRY_MAX_DELAY_MS : Nat := 4000

/-- Model of `isRetryableStatus`: request timeout, rate-limited, or any server
error. -/
def isRetryableStatus (status : Nat) : Bool :=
  status == 408 || status == 429 || decide (500 ≤ status)

/-- Outcome of one invocation of the wrapped operation: either the promise
rejected (a thrown network-layer error) or a response with an HTTP status
was obtained. -/
inductive TaskOutcome where
  | thrown (e : JStr)
  | responded (status : Nat)
deriving DecidableEq, Repr

/-- The message of the `Retryable response for ${label}` error. -/
def retryableMsg (label : JStr) : JStr := "Retryable response for ".toList ++ label

deriving instance DecidableEq for Except

/-- Observable trace of a `withRetry` run: the final outcome (the returned
response status, or the final thrown error), how many times the operation
was invoked, and the backoff delays slept between attempts. -/
structure RetryTrace where
  outcome : Except JStr Nat
  invocations : Nat
  delays : List Nat
deriving DecidableEq, Repr

/-- The backoff delay computed after attempt `attempt` (1-based):
`min(RETRY_BASE_DELAY_MS * 2 ** (attempt - 1), RETRY_MAX_DELAY_MS)`. -/
def retryDelay (attempt : Nat) : Nat :=
  min (RETRY_BASE_DELAY_MS * 2 ^ (attempt - 1)) RETRY_MAX_DELAY_MS

/-- The `for` loop of `withRetry`, indexed by the 1-based attempt counter
and the number of attempts still allowed. A task response is consulted via
`shouldRetry`; a non-retryable response returns immediately, otherwise the
error of the attempt becomes the candidate final error, and when attempts remain
the loop sleeps `retryDelay attempt` and goes round again. -/
def withRetryLoop (task : Nat → TaskOutcome) (shouldRetry : Nat → Bool)
    (label : JStr) (attempt : Nat) : Nat → RetryTrace
  | 0 => ⟨.error (retryableMsg label), 0, []⟩
  | remaining + 1 =>
    let retryOrFail := fun (e : JStr) =>
      if remaining = 0 then RetryTrace.mk (.error e) 1 []
      else
        let t := withRetryLoop task shouldRetry label (attempt + 1) remaining
        ⟨t.outcome, t.invocations + 1, retryDelay attempt :: t.delays⟩
    match task attempt with
    | .thrown e => retryOrFail e
    | .responded status =>
      if shouldRetry status then retryOrFail (retryableMsg label)
      else ⟨.ok status, 1, []⟩

/-- Model of `withRetry(task, options)` with explicit label, attempts and
shouldRetry arguments. -/
def withRetry (task : Nat → TaskOutcome) (label : JStr) (attempts : Nat)
    (shouldRetry : Nat → Bool) : RetryTrace :=
  withRetryLoop task shouldRetry label 1 attempts

/-! ### Content validator (`isValidImageFile`) and `downloadFile` -/

/-- State of a file at a local path, at the level of the file-system calls
`isValidImageFile` performs: existence and size from `getInfoAsync`, and the
two `readAsStringAsync` results (Base64 view and UTF8-decoded view of the
same bytes); `none` models the read throwing. -/
structure LocalFile where
  fsExists : Bool
  size : Nat
  base64Content : Option JStr
  utf8Content : Option JStr
deriving DecidableEq, Repr

/-- The HTML / access-denied markers searched for (already lowercased in the
source). -/
def hasHtmlMarker (textHead : JStr) : Bool :=
  containsSub "<html".toList textHead || containsSub "<!doctype".toList textHead ||
    containsSub "access denied".toList textHead ||
    containsSub "signature does not match".toList textHead

/-- Model of `isValidImageFile` of the sync service: reject a missing file or one
below 1024 bytes; inspect the first 32 Base64 characters for the PNG or JPEG
signature; for files of at most 512KB additionally reject when the first
4096 characters of the lowercased UTF8 view contain an HTML/access-denied
marker; when a read throws, fall back to `size > 1024`. -/
def isValidImageFile (f : LocalFile) : Bool :=
  if !f.fsExists then false
  else if f.size < 1024 then false
  else
    match f.base64Content with
    | none => decide (1024 < f.size)
    | some base64 =>
      let head := base64.take 32
      let looksPng := "iVBORw0KGgo".toList.isPrefixOf head
      let looksJpg := "/9j/".toList.isPrefixOf head
      if !looksPng && !looksJpg then false
      else if f.size ≤ 512 * 1024 then
        match f.utf8Content with
        | none => decide (1024 < f.size)
        | some utf8 =>
          let textHead := jsToLower (utf8.take 4096)
          if hasHtmlMarker textHead then false else true
      else true

/-- HTTP 2xx test used throughout the service (`status >= 200 && status < 300`). -/
def is2xx (status : Nat) : Bool := decide (200 ≤ status) && decide (status < 300)

/-- Observable outcome of one `tryDownload` stage inside `downloadFile`: the
HTTP status of the transfer and the state the target file is left in. -/
structure StageOutcome where
  status : Nat
  file : LocalFile
deriving DecidableEq, Repr

/-- The error `downloadFile` ends with when it does not return a path. -/
inductive DlError where
  | invalidContent
  | httpFailed (status : Nat)
deriving DecidableEq, Repr

/-- Observable trace of a `downloadFile` run: whether it returned the target
path or threw, and how many `deleteAsync` calls it made after a failed
validation. -/
structure DownloadTrace where
  outcome : Except DlError Unit
  deletions : Nat
deriving DecidableEq, Repr

/-- The third stage of `downloadFile` (private path with auth headers): on a
2xx response a valid file is returned, an invalid one is deleted and the
`appears invalid` error is thrown; on any other status the
`download failed` error is thrown. -/
def downloadFinalStage (st3 : StageOutcome) (deletionsSoFar : Nat) : DownloadTrace :=
  if is2xx st3.status then
    if isValidImageFile st3.file then ⟨.ok (), deletionsSoFar⟩
    else ⟨.error .invalidContent, deletionsSoFar + 1⟩
  else ⟨.error (.httpFailed st3.status), deletionsSoFar⟩

/-- Model of `downloadFile` of the sync service, as a function of the outcomes of its
(up to) three transfer stages: public URL without auth, public URL with auth
(only attempted when stage one ended in 400/401/403/404), private URL with
auth. A 2xx stage whose file fails validation deletes the file and falls
through to the next stage. -/
def downloadFile (st1 st2 st3 : StageOutcome) : DownloadTrace :=
  if is2xx st1.status && isValidImageFile st1.file then ⟨.ok (), 0⟩
  else
    let d1 := if is2xx st1.status then 1 else 0
    if st1.status == 400 || st1.status == 401 || st1.status == 403 || st1.status == 404 then
      if is2xx st2.status && isValidImageFile st2.file then ⟨.ok (), d1⟩
      else
        let d2 := d1 + (if is2xx st2.status then 1 else 0)
        downloadFinalStage st3 d2
    else downloadFinalStage st3 d1

/-! ### Sync engine: download path (`downloadMissingPhotos`) -/

/-- A remote object as produced by `listRemotePhotos`: the stored name and
its normalized comparison key `basename(name).toLowerCase()`. -/
structure RemoteFile where
  name : JStr
  normalized : JStr
deriving DecidableEq, Repr

/-- The mapping `listRemotePhotos` applies to the raw listing. -/
def mkRemoteFiles (remoteNames : List JStr) : List RemoteFile :=
  remoteNames.map (fun n => RemoteFile.mk n (jsToLower (basenameJs n)))

/-- The set of lowercased local basenames
(`localPhotos.map((p) => basename(p).toLowerCase())`); membership is what
the engine queries, so the JS `Set` is modelled by the underlying list. -/
def localNamesOf (localPhotos : List JStr) : List JStr :=
  localPhotos.map (fun p => jsToLower (basenameJs p))

/-- JS `Set` construction: deduplicate, keeping first insertions in order. -/
def dedupKeepFirst (l : List JStr) : List JStr :=
  l.foldl (fun acc n => if acc.contains n then acc else acc ++ [n]) []

/-- The expected remote file names for a roster: `composeImageFileName` per
player, plus the `.jpg` and `.jpeg` variants (first `.png` occurrence
replaced), all lowercased and collected into a JS `Set`. -/
def expectedNamesOf (playerNames : List JStr) : List JStr :=
  let expectedPng := playerNames.map composeImageFileName
  let expectedJpg := expectedPng.map (replaceFirst ".png".toList ".jpg".toList)
  let expectedJpeg := expectedPng.map (replaceFirst ".png".toList ".jpeg".toList)
  dedupKeepFirst ((expectedPng ++ expectedJpg ++ expectedJpeg).map jsToLower)

/-- Result of `downloadMissingPhotos`, with the list of file names for which
`downloadFile` was invoked kept as an observation (`attempts`). -/
structure SyncCounts where
  downloaded : Nat
  skipped : Nat
  failed : Nat
  attempts : List JStr
deriving DecidableEq, Repr

/-- The main scan of `downloadMissingPhotos`: download every candidate whose
normalized name is not already local, count the rest as skipped; each
attempted download succeeds or fails according to the oracle `downloadOk`
(one sequential `downloadFile` call per item, failures caught and
counted). -/
def scanCandidates (localNames : List JStr) (downloadOk : JStr → Bool)
    (candidates : List RemoteFile) : SyncCounts :=
  let toDownload := candidates.filter (fun f => !(localNames.contains f.normalized))
  let attempts := toDownload.map RemoteFile.name
  { downloaded := (attempts.filter downloadOk).length
    skipped := candidates.length - toDownload.length
    failed := (attempts.filter (fun n => !(downloadOk n))).length
    attempts := attempts }

/-- The direct-download fallback of `downloadMissingPhotos`: attempt every
expected name that is not already local, never counting anything skipped. -/
def fallbackScan (localNames : List JStr) (downloadOk : JStr → Bool)
    (expected : List JStr) : SyncCounts :=
  let fallbackNames := expected.filter (fun n => !(localNames.contains n))
  { downloaded := (fallbackNames.filter downloadOk).length
    skipped := 0
    failed := (fallbackNames.filter (fun n => !(downloadOk n))).length
    attempts := fallbackNames }

/-- Model of `downloadMissingPhotos(onProgress, playerNames)` of the sync service,
over the remote listing, the local photo paths, the optional roster, and the
per-file-name download success oracle. -/
def downloadMissingPhotos (remoteNames localPhotos : List JStr)
    (playerNames : Option (List JStr)) (downloadOk : JStr → Bool) : SyncCounts :=
  let remoteFiles := mkRemoteFiles remoteNames
  let localNames := localNamesOf localPhotos
  match playerNames with
  | none => scanCandidates localNames downloadOk remoteFiles
  | some ps =>
    if ps.length == 0 then scanCandidates localNames downloadOk remoteFiles
    else
      let expected := expectedNamesOf ps
      let filtered := remoteFiles.filter (fun f => expected.contains f.normalized)
      let candidates := if filtered.length == 0 then remoteFiles else filtered
      if candidates.length == 0 && remoteFiles.length == 0 then
        fallbackScan localNames downloadOk expected
      else
        scanCandidates localNames downloadOk candidates

/-! ### Sync engine: upload path (`uploadAllPhotos`) -/

/-- Result of `uploadAllPhotos`, with the list of attempted local paths and
the pending queue left behind (each success is `markUploaded`) kept as
observations. -/
structure UploadCounts where
  uploaded : Nat
  failed : Nat
  attempts : List JStr
  pendingAfter : List JStr
deriving DecidableEq, Repr

/-- Model of `uploadAllPhotos(onProgress)` of the sync service: the candidates are
`getPendingUploads()`; the full directory listing (`dirListing`) is state
the code could consult but does not. Each pending path is
attempted once, in order; a success is marked uploaded (removed from the
queue), a failure is counted and the loop continues. -/
def uploadAllPhotos (pending dirListing : List JStr) (uploadOk : JStr → Bool) : UploadCounts :=
  if pending.length == 0 then ⟨0, 0, [], pending⟩
  else
    { uploaded := (pending.filter uploadOk).length
      failed := (pending.filter (fun p => !(uploadOk p))).length
      attempts := pending
      pendingAfter := pending.filter (fun p => !(uploadOk p)) }

/-! ### Full-sync orchestration (`handleBidirectionalSync`, SettingsScreen) -/

/-- The alert the settings screen ends the sync with. -/
inductive SyncAlert where
  | notConfigured
  | complete (downloaded uploaded skipped failed : Nat)
  | syncError (msg : JStr)
deriving DecidableEq, Repr

/-- Observable outcome of `handleBidirectionalSync`: the alert shown, and
whether the upload phase was invoked at all. -/
structure SyncRun where
  alert : SyncAlert
  uploadRan : Bool
deriving DecidableEq, Repr

/-- Model of `handleBidirectionalSync` of SettingsScreen: both phases run inside one
`try`; the download result is awaited first, then the upload result, and the
completion alert reports `downloaded`, `uploaded`, `skipped` (download side)
and `failed` as the sum of the upload and download failure counts. A thrown
error from either phase lands in the shared `catch`, which shows the sync
error alert instead. -/
def handleBidirectionalSync (supabaseReady : Bool)
    (downloadResult : Except JStr SyncCounts)
    (uploadResult : Except JStr UploadCounts) : SyncRun :=
  if !supabaseReady then ⟨.notConfigured, false⟩
  else
    match downloadResult with
    | .error e => ⟨.syncError e, false⟩
    | .ok d =>
      match uploadResult with
      | .error e => ⟨.syncError e, true⟩
      | .ok u => ⟨.complete d.downloaded u.uploaded d.skipped (u.failed + d.failed), true⟩

/-! ### Helper lemmas -/

/-- A filter and its complement partition the length of a list. -/
theorem length_filter_split {α : Type} (p : α → Bool) (l : List α) :
    (l.filter p).length + (l.filter (fun a => !p a)).length = l.length := by
  induction l with
  | nil => rfl
  | cons a l ih =>
    by_cases h : p a <;> simp [List.filter_cons, h, ← ih] <;> omega

/-- The split of a string never produces the empty list of parts. -/
theorem jsSplitOn_ne_nil (sep : Char) (s : JStr) : jsSplitOn sep s ≠ [] := by
  cases s with
  | nil => simp [jsSplitOn]
  | cons c rest =>
    simp only [jsSplitOn]
    by_cases h : c == sep
    · simp [h]
    · simp only [h]
      cases jsSplitOn sep rest <;> simp

/-- Splitting a string that does not contain the separator yields the whole
string as the only part. -/
theorem jsSplitOn_no_sep (sep : Char) (s : JStr) (h : sep ∉ s) :
    jsSplitOn sep s = [s] := by
  induction s with
  | nil => rfl
  | cons c rest ih =>
    simp only [List.mem_cons, not_or] at h
    simp only [jsSplitOn, beq_iff_eq]
    rw [if_neg (fun hc => h.1 hc.symm), ih h.2]

/-- Splitting at the first separator occurrence: the prefix before it is the
first part. -/
theorem jsSplitOn_append (sep : Char) (l r : JStr) (h : sep ∉ l) :
    jsSplitOn sep (l ++ sep :: r) = l :: jsSplitOn sep r := by
  induction l with
  | nil => simp [jsSplitOn]
  | cons c rest ih =>
    simp only [List.mem_cons, not_or] at h
    simp only [List.cons_append, jsSplitOn, beq_iff_eq, List.append_eq]
    rw [if_neg (fun hc => h.1 hc.symm), ih h.2]

/-- Dropping leading whitespace does not change the whitespace-free residue. -/
theorem removeWhitespace_dropWhile (s : JStr) :
    removeWhitespace (s.dropWhile Char.isWhitespace) = removeWhitespace s := by
  induction s with
  | nil => rfl
  | cons c rest ih =>
    by_cases h : c.isWhitespace
    · rw [List.dropWhile_cons, if_pos h, ih]
      simp [removeWhitespace, List.filter_cons, h]
    · rw [List.dropWhile_cons, if_neg h]

/-- Removing whitespace commutes with list reversal. -/
theorem removeWhitespace_reverse (s : JStr) :
    removeWhitespace s.reverse = (removeWhitespace s).reverse := by
  simp [removeWhitespace, List.filter_reverse]

/-- Trimming does not change the whitespace-free residue. -/
theorem removeWhitespace_jsTrim (s : JStr) :
    removeWhitespace (jsTrim s) = removeWhitespace s := by
  unfold jsTrim
  rw [removeWhitespace_reverse, removeWhitespace_dropWhile, removeWhitespace_reverse,
    List.reverse_reverse, removeWhitespace_dropWhile]

/-- Removing whitespace distributes over append. -/
theorem removeWhitespace_append (s t : JStr) :
    removeWhitespace (s ++ t) = removeWhitespace s ++ removeWhitespace t := by
  simp [removeWhitespace, List.filter_append]

/-- Behaviour of the retry loop when every invocation yields a retryable
503 response: all allowed attempts are consumed, the final error is the
retryable-response error, and a backoff delay is slept after every attempt
but the last. -/
theorem withRetryLoop_always_503 (task : Nat → TaskOutcome) (label : JStr)
    (h : ∀ n, task n = .responded 503) (k : Nat) :
    ∀ attempt : Nat, withRetryLoop task isRetryableStatus label attempt (k + 1) =
      ⟨.error (retryableMsg label), k + 1,
        (List.range k).map (fun i => retryDelay (attempt + i))⟩ := by
  induction k with
  | zero =>
    intro attempt
    simp [withRetryLoop, h attempt, isRetryableStatus]
  | succ m ih =>
    intro attempt
    rw [withRetryLoop, h attempt]
    simp only [show isRetryableStatus 503 = true from rfl, if_true,
      if_neg (Nat.succ_ne_zero m)]
    rw [ih (attempt + 1)]
    rw [List.range_succ_eq_map, List.map_cons, List.map_map]
    congr 1
    congr 1
    show List.map (fun i => retryDelay (attempt + 1 + i)) (List.range m) =
      List.map ((fun i => retryDelay (attempt + i)) ∘ Nat.succ) (List.range m)
    apply List.map_congr_left
    intro i _
    simp only [Function.comp_apply]
    congr 1
    omega

/-! ### Claim theorems -/

/-- C4: for every operation that always yields a response with status 503,
`withRetry` invokes the operation exactly `attempts` times (default 3,
`RETRY_ATTEMPTS`) and then fails with the final (retryable-response) error,
and the delay slept after attempt `n` (before retry `n + 1`) equals
`min(400 * 2 ** (n - 1), 4000)` milliseconds, i.e. the delays list is
`[min(400 * 2 ** 0, 4000), ..., min(400 * 2 ** (attempts - 2), 4000)]`. -/
theorem c4_retry_exhaustion (attempts : Nat) (label : JStr)
    (task : Nat → TaskOutcome) (h1 : 1 ≤ attempts)
    (h2 : ∀ n, task n = .responded 503) :
    withRetry task label attempts isRetryableStatus =
      ⟨.error (retryableMsg label), attempts,
        (List.range (attempts - 1)).map
          (fun n => min (RETRY_BASE_DELAY_MS * 2 ^ n) RETRY_MAX_DELAY_MS)⟩ := by
  obtain ⟨k, rfl⟩ : ∃ k, attempts = k + 1 :=
    ⟨attempts - 1, by omega⟩
  unfold withRetry
  rw [withRetryLoop_always_503 task label h2 k 1]
  congr 1
  simp only [Nat.add_sub_cancel]
  apply List.map_congr_left
  intro i _
  unfold retryDelay
  have hi : 1 + i - 1 = i := by omega
  rw [hi]

/-- Witness for C4 at the default attempt budget 3: the always-503 task is
invoked 3 times, the retryable-response error is the outcome, and the
backoff delays are 400ms then 800ms. -/
theorem c4_retry_exhaustion_witness :
    (1 ≤ RETRY_ATTEMPTS) ∧
      withRetry (fun _ => .responded 503) "list photos".toList RETRY_ATTEMPTS
          isRetryableStatus =
        ⟨.error (retryableMsg "list photos".toList), 3, [400, 800]⟩ := by
  refine ⟨by decide, ?_⟩
  have h := c4_retry_exhaustion RETRY_ATTEMPTS "list photos".toList
    (fun _ => .responded 503) (by decide) (fun _ => rfl)
  rw [h]
  decide

/-- C5 counterexample: 408 is a client-error status (4xx) other than 429,
yet an operation that always responds 408 is invoked all 3 times, not
exactly once — the claim quantifies over every client-error status other
than 429, and fails at 408. -/
theorem c5_counterexample :
    400 ≤ 408 ∧ 408 < 500 ∧ 408 ≠ 429 ∧
      (withRetry (fun _ => .responded 408) "download".toList RETRY_ATTEMPTS
          isRetryableStatus).invocations = 3 := by
  decide

/-- C5 (amended): only statuses 408, 429 and 5xx are retryable, and for
every operation whose first response is a client-error status other than
408 and 429, `withRetry` invokes the operation exactly once and returns
that response immediately, with no backoff slept. -/
theorem c5_no_retry_on_permanent :
    (∀ s : Nat, isRetryableStatus s = true ↔ (s = 408 ∨ s = 429 ∨ 500 ≤ s)) ∧
      (∀ (s attempts : Nat) (label : JStr) (task : Nat → TaskOutcome),
        400 ≤ s → s < 500 → s ≠ 408 → s ≠ 429 → 1 ≤ attempts →
        task 1 = .responded s →
        withRetry task label attempts isRetryableStatus = ⟨.ok s, 1, []⟩) := by
  constructor
  · intro s
    simp only [isRetryableStatus, Bool.or_eq_true, beq_iff_eq, decide_eq_true_eq]
    tauto
  · intro s attempts label task h400 h500 h408 h429 h1 htask
    obtain ⟨k, rfl⟩ : ∃ k, attempts = k + 1 := ⟨attempts - 1, by omega⟩
    unfold withRetry
    rw [withRetryLoop, htask]
    have hs : isRetryableStatus s = false := by
      simp only [isRetryableStatus, Bool.or_eq_false_iff, beq_eq_false_iff_ne,
        ne_eq, decide_eq_false_iff_not, not_le]
      exact ⟨⟨h408, h429⟩, by omega⟩
    simp [hs]

/-- Witness for C5 at status 404: retryability matches the 408/429/5xx rule
at 404 and 503, and an operation responding 404 is attempted exactly once
with its response surfacing as the outcome. -/
theorem c5_no_retry_on_permanent_witness :
    isRetryableStatus 404 = false ∧ isRetryableStatus 503 = true ∧
      withRetry (fun _ => .responded 404) "download".toList RETRY_ATTEMPTS
          isRetryableStatus = ⟨.ok 404, 1, []⟩ := by
  refine ⟨by decide, by decide, ?_⟩
  exact c5_no_retry_on_permanent.2 404 RETRY_ATTEMPTS "download".toList
    (fun _ => .responded 404) (by decide) (by decide) (by decide) (by decide)
    (by decide) rfl

/-- C9 counterexample: for the display name "Smith, Jane" (last name Smith,
first name Jane), `composeImageFileName` yields `janesmith.png` — the FIRST
name concatenated with the LAST name — not the `smithjane.png` that
last-then-first concatenation would produce. -/
theorem c9_counterexample :
    composeImageFileName "Smith, Jane".toList = "janesmith.png".toList ∧
      composeImageFileName "Smith, Jane".toList ≠ "smithjane.png".toList := by
  decide

/-- C9 (amended): for every player display name of the form "Last, First"
(one comma), the derived logical photo name is the FIRST name concatenated
with the LAST name in that order, lowercased, with all whitespace removed
and no separators, plus the `.png` extension. -/
theorem c9_compose_first_then_last (lastName firstName : JStr)
    (h1 : ',' ∉ lastName) (h2 : ',' ∉ firstName) :
    composeImageFileName (lastName ++ ',' :: firstName) =
      jsToLower (removeWhitespace (firstName ++ lastName)) ++ ".png".toList := by
  unfold composeImageFileName
  rw [jsSplitOn_append ',' lastName firstName h1, jsSplitOn_no_sep ',' firstName h2]
  simp only []
  rw [removeWhitespace_append, removeWhitespace_jsTrim, removeWhitespace_jsTrim,
    ← removeWhitespace_append]

/-- Witness for C9 at the name "Smith, Jane": the theorem applied to the
parts "Smith" and " Jane" yields `janesmith.png`. -/
theorem c9_compose_first_then_last_witness :
    composeImageFileName ("Smith".toList ++ ',' :: " Jane".toList) =
      "janesmith.png".toList := by
  rw [c9_compose_first_then_last "Smith".toList " Jane".toList (by decide) (by decide)]
  decide

/-- C2: the upload batch derives its candidates only from the pending-upload
queue: its result is invariant under any change of the photo-directory
listing, and every attempted (hence every uploaded) path is a member of the
pending queue — a local file not in the pending queue is never uploaded. -/
theorem c2_upload_only_pending :
    (∀ (pending dir1 dir2 : List JStr) (uploadOk : JStr → Bool),
        uploadAllPhotos pending dir1 uploadOk = uploadAllPhotos pending dir2 uploadOk) ∧
      (∀ (pending dir : List JStr) (uploadOk : JStr → Bool) (p : JStr),
        p ∈ (uploadAllPhotos pending dir uploadOk).attempts → p ∈ pending) := by
  constructor
  · intro pending dir1 dir2 uploadOk
    rfl
  · intro pending dir uploadOk p hp
    unfold uploadAllPhotos at hp
    split at hp
    · simp at hp
    · exact hp

/-- Witness for C2: with pending queue `[photos/a.jpg]` the result ignores
whether the directory also holds `photos/b.jpg`, and membership of the one
attempted path in the pending queue is produced by the theorem. -/
theorem c2_upload_only_pending_witness :
    uploadAllPhotos ["photos/a.jpg".toList]
        ["photos/a.jpg".toList, "photos/b.jpg".toList] (fun _ => true) =
      uploadAllPhotos ["photos/a.jpg".toList] [] (fun _ => true) ∧
      "photos/a.jpg".toList ∈ ["photos/a.jpg".toList] :=
  ⟨c2_upload_only_pending.1 ["photos/a.jpg".toList]
      ["photos/a.jpg".toList, "photos/b.jpg".toList] [] (fun _ => true),
    c2_upload_only_pending.2 ["photos/a.jpg".toList]
      ["photos/a.jpg".toList, "photos/b.jpg".toList] (fun _ => true)
      "photos/a.jpg".toList (by decide)⟩

/-- C3 counterexample: with Supabase configured, when the download phase
throws (here a listing failure), `handleBidirectionalSync` shows the sync
error alert and the upload phase never runs — no merged summary with
additive failed counts is produced, refuting phase independence. -/
theorem c3_counterexample :
    handleBidirectionalSync true
        (.error "Supabase list failed (500): boom".toList)
        (.ok ⟨0, 0, [], []⟩) =
      ⟨.syncError "Supabase list failed (500): boom".toList, false⟩ := by
  decide

/-- C3 (amended): the phases are NOT independent — when the download phase
throws, the upload phase does not run and the caller gets the error alert
instead of a summary; only when both phases complete without throwing does
the caller receive the merged summary, whose failed count is the sum of the
failed counts of the upload and download phases. -/
theorem c3_download_failure_skips_upload :
    (∀ (e : JStr) (u : Except JStr UploadCounts),
        handleBidirectionalSync true (.error e) u = ⟨.syncError e, false⟩) ∧
      (∀ (d : SyncCounts) (u : UploadCounts),
        handleBidirectionalSync true (.ok d) (.ok u) =
          ⟨.complete d.downloaded u.uploaded d.skipped (u.failed + d.failed), true⟩) :=
  ⟨fun _ _ => rfl, fun _ _ => rfl⟩

/-- Witness for C3: a concrete download error yields the error alert with
the upload phase not run, and a concrete pair of phase results yields the
merged summary with failed = 1 + 2. -/
theorem c3_download_failure_skips_upload_witness :
    handleBidirectionalSync true (.error "boom".toList)
        (.ok ⟨0, 0, [], []⟩) = ⟨.syncError "boom".toList, false⟩ ∧
      handleBidirectionalSync true (.ok ⟨3, 1, 2, []⟩) (.ok ⟨4, 1, [], []⟩) =
        ⟨.complete 3 4 1 3, true⟩ :=
  ⟨c3_download_failure_skips_upload.1 "boom".toList (.ok ⟨0, 0, [], []⟩),
    c3_download_failure_skips_upload.2 ⟨3, 1, 2, []⟩ ⟨4, 1, [], []⟩⟩

/-- C6 counterexample, two parts at explicit inputs. First: a 600KB file
whose Base64 view starts with the PNG signature but whose decoded text
contains an HTML marker is ACCEPTED by the validator (files over 512KB skip
the text inspection), so containing HTML does not universally imply
rejection. Second: a run of `downloadFile` whose first transfer returns 200
with a file failing validation deletes the file (one deletion) but then
succeeds via the private-path fallback, so a validation failure after a
successful transfer does not universally make the item count as failed. -/
theorem c6_counterexample :
    (isValidImageFile
          ⟨true, 614400, some "iVBORw0KGgoAAAANSUhEUg".toList,
            some "<html>denied".toList⟩ = true ∧
        containsSub "<html".toList (jsToLower "<html>denied".toList) = true ∧
        1024 ≤ 614400) ∧
      (downloadFile ⟨200, ⟨true, 10, none, none⟩⟩ ⟨0, ⟨false, 0, none, none⟩⟩
            ⟨200, ⟨true, 2048, some "iVBORw0KGgoAAAANSUhEUg".toList,
              some "imagebytes".toList⟩⟩ =
          ⟨.ok (), 1⟩ ∧
        is2xx 200 = true ∧ isValidImageFile ⟨true, 10, none, none⟩ = false) := by
  decide

/-- C6 (amended): the validator rejects a missing file and a file below 1KB;
it rejects a file on HTML/access-denied content when the file is at most
512KB, both reads succeed, and a marker occurs in the first 4096 characters
of the lowercased decoded text; when every transfer stage of `downloadFile`
yields an invalid file and the final stage returns 2xx, the file is deleted
(at least one deletion) and `downloadFile` throws the invalid-content error
— which the download loop catches, counting the item failed: in every run
of `downloadMissingPhotos`, the failed count equals the number of attempted
downloads whose transfer did not succeed. -/
theorem c6_validator_rejects_and_counts_failed :
    (∀ f : LocalFile, f.fsExists = false → isValidImageFile f = false) ∧
      (∀ f : LocalFile, f.size < 1024 → isValidImageFile f = false) ∧
      (∀ (f : LocalFile) (b t : JStr), f.size ≤ 512 * 1024 →
        f.base64Content = some b → f.utf8Content = some t →
        hasHtmlMarker (jsToLower (t.take 4096)) = true →
        isValidImageFile f = false) ∧
      (∀ st1 st2 st3 : StageOutcome,
        isValidImageFile st1.file = false → isValidImageFile st2.file = false →
        is2xx st3.status = true → isValidImageFile st3.file = false →
        (downloadFile st1 st2 st3).outcome = .error .invalidContent ∧
          1 ≤ (downloadFile st1 st2 st3).deletions) ∧
      (∀ (remote locals : List JStr) (po : Option (List JStr)) (dl : JStr → Bool),
        (downloadMissingPhotos remote locals po dl).failed =
          ((downloadMissingPhotos remote locals po dl).attempts.filter
            (fun n => !(dl n))).length) := by
  refine ⟨?_, ?_, ?_, ?_, ?_⟩
  · intro f h
    unfold isValidImageFile
    simp [h]
  · intro f h
    unfold isValidImageFile
    by_cases hfe : f.fsExists <;> simp [hfe, h]
  · intro f b t hsize hb ht hm
    unfold isValidImageFile
    cases hfe : f.fsExists
    · simp
    · simp only [Bool.not_true, Bool.false_eq_true, if_false]
      by_cases hsz : f.size < 1024
      · simp [hsz]
      · rw [if_neg hsz, hb]
        dsimp only
        by_cases hsig : (!("iVBORw0KGgo".toList.isPrefixOf (b.take 32)) &&
            !("/9j/".toList.isPrefixOf (b.take 32))) = true
        · rw [if_pos hsig]
        · rw [if_neg hsig, if_pos hsize, ht]
          dsimp only
          rw [if_pos hm]
  · intro st1 st2 st3 h1 h2 h3 h4
    have hfinal : ∀ d : Nat, downloadFinalStage st3 d =
        ⟨.error .invalidContent, d + 1⟩ := by
      intro d
      unfold downloadFinalStage
      simp [h3, h4]
    unfold downloadFile
    rw [h1, h2]
    simp only [Bool.and_false, Bool.false_eq_true, if_false]
    split
    · rw [hfinal]
      exact ⟨rfl, Nat.le_add_left 1 _⟩
    · rw [hfinal]
      exact ⟨rfl, Nat.le_add_left 1 _⟩
  · intro remote locals po dl
    cases po with
    | none => rfl
    | some ps =>
      simp only [downloadMissingPhotos]
      repeat' split
      all_goals rfl

/-- Witness for C6 at concrete inputs: a missing file, an 800-byte file, a
2KB PNG-signature file with an HTML marker in its text, an all-stages-bad
`downloadFile` run, and a concrete `downloadMissingPhotos` call whose one
attempted download fails. -/
theorem c6_validator_rejects_and_counts_failed_witness :
    isValidImageFile ⟨false, 5000, none, none⟩ = false ∧
      isValidImageFile ⟨true, 800, some "iVBORw0KGgoAA".toList, none⟩ = false ∧
      isValidImageFile
          ⟨true, 2048, some "iVBORw0KGgoAA".toList, some "<html>x".toList⟩ = false ∧
      ((downloadFile ⟨500, ⟨false, 0, none, none⟩⟩ ⟨500, ⟨false, 0, none, none⟩⟩
            ⟨200, ⟨true, 10, none, none⟩⟩).outcome = .error .invalidContent ∧
        1 ≤ (downloadFile ⟨500, ⟨false, 0, none, none⟩⟩ ⟨500, ⟨false, 0, none, none⟩⟩
            ⟨200, ⟨true, 10, none, none⟩⟩).deletions) ∧
      (downloadMissingPhotos ["bob.png".toList] [] none (fun _ => false)).failed =
        ((downloadMissingPhotos ["bob.png".toList] [] none
            (fun _ => false)).attempts.filter (fun _ => !false)).length :=
  ⟨c6_validator_rejects_and_counts_failed.1 ⟨false, 5000, none, none⟩ rfl,
    c6_validator_rejects_and_counts_failed.2.1
      ⟨true, 800, some "iVBORw0KGgoAA".toList, none⟩ (by decide),
    c6_validator_rejects_and_counts_failed.2.2.1
      ⟨true, 2048, some "iVBORw0KGgoAA".toList, some "<html>x".toList⟩
      "iVBORw0KGgoAA".toList "<html>x".toList (by decide) rfl rfl (by decide),
    c6_validator_rejects_and_counts_failed.2.2.2.1
      ⟨500, ⟨false, 0, none, none⟩⟩ ⟨500, ⟨false, 0, none, none⟩⟩
      ⟨200, ⟨true, 10, none, none⟩⟩ (by decide) (by decide) (by decide) (by decide),
    c6_validator_rejects_and_counts_failed.2.2.2.2
      ["bob.png".toList] [] none (fun _ => false)⟩

/-- C7 counterexample: a 2KB file whose Base64 view starts with the PNG
signature but whose decoded text contains `<html>` is REJECTED by the
validator, so PNG signature plus size at least 1KB does not universally
imply acceptance. -/
theorem c7_counterexample :
    "iVBORw0KGgo".toList.isPrefixOf ("iVBORw0KGgoAAAANSUhEUg".toList.take 32) = true ∧
      1024 ≤ (2048 : Nat) ∧
      isValidImageFile
          ⟨true, 2048, some "iVBORw0KGgoAAAANSUhEUg".toList,
            some "<html>denied".toList⟩ = false := by
  decide

/-- C7 (amended): a file whose Base64 view starts with the PNG or JPEG
signature and whose size is at least 1KB is accepted, provided the text
inspection passes: the file exceeds 512KB (inspection skipped), or its
lowercased decoded text has no HTML/access-denied marker in the first 4096
characters, or the text read throws and the size strictly exceeds 1024. -/
theorem c7_validator_accepts (f : LocalFile) (b : JStr)
    (h1 : f.fsExists = true) (h2 : 1024 ≤ f.size) (h3 : f.base64Content = some b)
    (h4 : ("iVBORw0KGgo".toList.isPrefixOf (b.take 32) ||
        "/9j/".toList.isPrefixOf (b.take 32)) = true)
    (h5 : 512 * 1024 < f.size ∨
      (∃ t, f.utf8Content = some t ∧
        hasHtmlMarker (jsToLower (t.take 4096)) = false) ∨
      (f.utf8Content = none ∧ 1024 < f.size)) :
    isValidImageFile f = true := by
  unfold isValidImageFile
  rw [h1]
  simp only [Bool.not_true, Bool.false_eq_true, if_false]
  rw [if_neg (by omega : ¬ f.size < 1024), h3]
  dsimp only
  have hsig : (!("iVBORw0KGgo".toList.isPrefixOf (b.take 32)) &&
      !("/9j/".toList.isPrefixOf (b.take 32))) = false := by
    rw [← Bool.not_or, h4]
    rfl
  simp only [hsig, Bool.false_eq_true, if_false]
  rcases h5 with h5 | ⟨t, ht, hm⟩ | ⟨ht, hgt⟩
  · rw [if_neg (by omega)]
  · by_cases hle : f.size ≤ 512 * 1024
    · rw [if_pos hle, ht]
      dsimp only
      simp [hm]
    · rw [if_neg hle]
  · by_cases hle : f.size ≤ 512 * 1024
    · rw [if_pos hle, ht]
      simp only [decide_eq_true_eq]
      exact hgt
    · rw [if_neg hle]

/-- Witness for C7: a 2KB file with the PNG Base64 signature and unsuspicious
decoded text is accepted. -/
theorem c7_validator_accepts_witness :
    isValidImageFile
        ⟨true, 2048, some "iVBORw0KGgoAAAANSUhEUg".toList,
          some "imagebytes".toList⟩ = true :=
  c7_validator_accepts
    ⟨true, 2048, some "iVBORw0KGgoAAAANSUhEUg".toList, some "imagebytes".toList⟩
    "iVBORw0KGgoAAAANSUhEUg".toList rfl (by decide) rfl (by decide)
    (Or.inr (Or.inl ⟨"imagebytes".toList, rfl, by decide⟩))

/-- C1 counterexample: in the stated scenario — local store `[alice.jpg]`,
remote listing `[alice.png, bob.png]`, expected logical names
`[alice, bob]`, every transfer succeeding — the engine downloads BOTH remote
objects and skips nothing: the result is not
`{downloaded: 1, skipped: 1, failed: 0}`, because the already-local test
compares exact lowercased basenames (extension included), so `alice.png` is
not matched by the local `alice.jpg`. -/
theorem c1_counterexample :
    (downloadMissingPhotos ["alice.png".toList, "bob.png".toList]
        ["photos/alice.jpg".toList] (some ["alice".toList, "bob".toList])
        (fun _ => true)).downloaded = 2 ∧
      (downloadMissingPhotos ["alice.png".toList, "bob.png".toList]
        ["photos/alice.jpg".toList] (some ["alice".toList, "bob".toList])
        (fun _ => true)).skipped = 0 ∧
      ¬ ((downloadMissingPhotos ["alice.png".toList, "bob.png".toList]
            ["photos/alice.jpg".toList] (some ["alice".toList, "bob".toList])
            (fun _ => true)).downloaded = 1 ∧
          (downloadMissingPhotos ["alice.png".toList, "bob.png".toList]
            ["photos/alice.jpg".toList] (some ["alice".toList, "bob".toList])
            (fun _ => true)).skipped = 1 ∧
          (downloadMissingPhotos ["alice.png".toList, "bob.png".toList]
            ["photos/alice.jpg".toList] (some ["alice".toList, "bob".toList])
            (fun _ => true)).failed = 0) := by
  decide

/-- C1 (amended): a remote object is treated as already-local only when its
exact lowercased basename (extension included) is present locally — the
dual-extension rule shapes the expected-name filter, not the skip test. In
the stated scenario the engine therefore returns
`{downloaded: 2, skipped: 0, failed: 0}`, downloading `alice.png` despite
the local `alice.jpg`; a remote object under the SAME extension as the local
file (local `alice.jpg`, remote `alice.jpg`) is skipped as already-local,
giving `{downloaded: 1, skipped: 1, failed: 0}`. -/
theorem c1_exact_extension_matching :
    downloadMissingPhotos ["alice.png".toList, "bob.png".toList]
        ["photos/alice.jpg".toList] (some ["alice".toList, "bob".toList])
        (fun _ => true) =
      ⟨2, 0, 0, ["alice.png".toList, "bob.png".toList]⟩ ∧
      downloadMissingPhotos ["alice.jpg".toList, "bob.png".toList]
        ["photos/alice.jpg".toList] (some ["alice".toList, "bob".toList])
        (fun _ => true) =
      ⟨1, 1, 0, ["bob.png".toList]⟩ := by
  decide

/-- C8: when the remote listing returns zero objects and the expected
logical-name list is non-empty, the engine takes the direct-download
fallback: the set of file names for which a download is attempted is
exactly the expected file names (all accepted extensions) not already
present locally, and every one of them ends up counted as downloaded or
failed — it does not return `downloaded: 0` without attempting anything. -/
theorem c8_fallback_on_empty_listing (p : JStr) (rest locals : List JStr)
    (dl : JStr → Bool) :
    (downloadMissingPhotos [] locals (some (p :: rest)) dl).attempts =
        (expectedNamesOf (p :: rest)).filter
          (fun n => !((localNamesOf locals).contains n)) ∧
      (downloadMissingPhotos [] locals (some (p :: rest)) dl).downloaded +
          (downloadMissingPhotos [] locals (some (p :: rest)) dl).failed =
        ((expectedNamesOf (p :: rest)).filter
          (fun n => !((localNamesOf locals).contains n))).length := by
  constructor
  · rfl
  · exact length_filter_split dl
      ((expectedNamesOf (p :: rest)).filter
        (fun n => !((localNamesOf locals).contains n)))

/-- Witness for C8: with an empty remote listing, local `[photos/bob.png]`
and roster `[alice, bob]`, the engine attempts exactly the five expected
names not already local, and with every download failing the counts cover
all five attempts. -/
theorem c8_fallback_on_empty_listing_witness :
    (downloadMissingPhotos [] ["photos/bob.png".toList]
        (some ["alice".toList, "bob".toList]) (fun _ => false)).attempts =
      ["alice.png".toList, "alice.jpg".toList, "bob.jpg".toList,
        "alice.jpeg".toList, "bob.jpeg".toList] ∧
      (downloadMissingPhotos [] ["photos/bob.png".toList]
          (some ["alice".toList, "bob".toList]) (fun _ => false)).downloaded +
        (downloadMissingPhotos [] ["photos/bob.png".toList]
          (some ["alice".toList, "bob".toList]) (fun _ => false)).failed = 5 := by
  have h := c8_fallback_on_empty_listing "alice".toList ["bob".toList]
    ["photos/bob.png".toList] (fun _ => false)
  exact ⟨h.1.trans (by decide), h.2.trans (by decide)⟩

/-- C10: whenever the direct-download fallback path is taken (remote listing
empty, roster non-empty), the returned `skipped` count is 0 — expected names
already present locally are silently excluded from the attempt list without
being counted as skipped. -/
theorem c10_fallback_skipped_zero (p : JStr) (rest locals : List JStr)
    (dl : JStr → Bool) :
    (downloadMissingPhotos [] locals (some (p :: rest)) dl).skipped = 0 := rfl

/-- Witness for C10: `alice.png` is an expected name and is already present
locally, yet the fallback result still reports `skipped = 0` (the name is
simply not attempted). -/
theorem c10_fallback_skipped_zero_witness :
    ("alice.png".toList ∈ expectedNamesOf ["alice".toList, "bob".toList] ∧
        (localNamesOf ["photos/alice.png".toList]).contains "alice.png".toList = true ∧
        "alice.png".toList ∉
          (downloadMissingPhotos [] ["photos/alice.png".toList]
            (some ["alice".toList, "bob".toList]) (fun _ => true)).attempts) ∧
      (downloadMissingPhotos [] ["photos/alice.png".toList]
        (some ["alice".toList, "bob".toList]) (fun _ => true)).skipped = 0 :=
  ⟨by decide,
    c10_fallback_skipped_zero "alice".toList ["bob".toList]
      ["photos/alice.png".toList] (fun _ => true)⟩
